import Mathlib

/-!
Verification of the sales-dashboard data pipeline
(streamlit_app.py): dataset generation, date/region filtering,
scalar metrics and groupby aggregation, embedded shallowly as pure
functions on lists of records.

Modelling conventions:
* A calendar date is a natural number counting days since the fixed
  epoch 2024-01-01 (the start value of pd.date_range on line 25).
* np.random.randint(100, 1000) and np.random.choice over the fixed
  four-element region list are modelled by oracle streams
  (Nat-valued functions of the row index) reduced into the
  documented ranges exactly as the numpy contracts guarantee:
  randint draws land in [100, 1000) and choice picks one of the four
  listed regions.
* pandas Series.mean() of an empty series is NaN (no exception);
  the NaN sentinel is modelled as Option.none.
* pd.date_range raises ValueError when periods is negative, which is
  the InvalidArgument error kind of the spec; with periods = 0 it
  returns an empty index and no error is raised anywhere. Dates are
  nanosecond-resolution int64 Timestamps capped at Timestamp.max,
  2262-04-11 23:47:16.854775807, so a daily range from 2024-01-01
  with more than 87029 periods (last midnight past 2262-04-11, which
  is day offset 87028) raises OutOfBoundsDatetime instead.
-/

namespace SalesDashboard

/-- The four region values of line 27, in source-list order. -/
inductive Region
  | North
  | South
  | East
  | West
deriving DecidableEq, Repr, Fintype

/-- Position of a region's name in the lexicographic order of the four
region strings: "East" < "North" < "South" < "West". pandas groupby
sorts group keys (sort=True is the default), and for string keys that
order is lexicographic. -/
def Region.lexRank : Region → Nat
  | .East => 0
  | .North => 1
  | .South => 2
  | .West => 3

/-- Lexicographic-by-name order on regions, via lexRank. -/
def Region.lexLe (a b : Region) : Prop := a.lexRank ≤ b.lexRank

instance : DecidableRel Region.lexLe := fun a b => Nat.decLe a.lexRank b.lexRank

instance : IsTotal Region Region.lexLe := ⟨by decide⟩

instance : IsTrans Region Region.lexLe := ⟨by decide⟩

instance : IsAntisymm Region Region.lexLe := ⟨by decide⟩

/-- One row of the DataFrame built on lines 28-32: date (days since
2024-01-01), integer sales amount, region. -/
structure Record where
  date : Nat
  sales : Nat
  region : Region
deriving DecidableEq, Repr

/-- The filter inputs collected in the sidebar (lines 55-74): an
inclusive date range and the multiselect's list of regions. -/
structure FilterCriteria where
  start_date : Nat
  end_date : Nat
  selected_regions : List Region
deriving DecidableEq, Repr

/-- The error kinds pd.date_range can raise here: ValueError on a
negative periods argument (the spec's InvalidArgument kind), and
OutOfBoundsDatetime when the requested range passes Timestamp.max. -/
inductive GenError
  | invalidArgument
  | outOfBoundsDatetime
deriving DecidableEq, Repr

/-- The largest number of daily periods starting at 2024-01-01 whose
dates all fit below pandas' Timestamp.max (2262-04-11
23:47:16.854775807): the representable midnights are day offsets
0..87028, hence at most 87029 periods. -/
def maxDailyPeriods : Nat := 87029

/-- np.random.choice(['North', 'South', 'East', 'West']) on line 27:
uniform pick from the four-element list, modelled as indexing the
source list by an oracle draw reduced mod 4. -/
def regionChoice (r : Nat) : Region :=
  if r % 4 = 0 then .North
  else if r % 4 = 1 then .South
  else if r % 4 = 2 then .East
  else .West

/-- generate_sales_data (lines 15-33). pd.date_range("2024-01-01",
periods=num_days, freq="D") gives day offsets 0, 1, ..., num_days-1;
it raises ValueError for negative num_days, and OutOfBoundsDatetime
when the run of midnights would pass Timestamp.max, i.e. for more
than maxDailyPeriods periods; np.random.randint(100, 1000) gives
100 + draw % 900; regions come from regionChoice. salesRng and
regionRng are the random oracle streams. -/
def generate_sales_data (salesRng regionRng : Nat → Nat) (num_days : Int) :
    Except GenError (List Record) :=
  if num_days < 0 then .error .invalidArgument
  else if maxDailyPeriods < num_days.toNat then .error .outOfBoundsDatetime
  else .ok ((List.range num_days.toNat).map fun i =>
    { date := i, sales := 100 + salesRng i % 900, region := regionChoice (regionRng i) })

/-- The boolean mask df['Date'] >= start_date of line 79. -/
def maskDateGe (df : List Record) (c : FilterCriteria) : List Bool :=
  df.map fun r => c.start_date ≤ r.date

/-- The boolean mask df['Date'] <= end_date of line 80. -/
def maskDateLe (df : List Record) (c : FilterCriteria) : List Bool :=
  df.map fun r => r.date ≤ c.end_date

/-- The boolean mask df['Region'].isin(selected_regions) of line 81. -/
def maskRegionIsin (df : List Record) (c : FilterCriteria) : List Bool :=
  df.map fun r => r.region ∈ c.selected_regions

/-- Elementwise & of two boolean masks. -/
def andMask (a b : List Bool) : List Bool := List.zipWith (· && ·) a b

/-- Row selection df[mask]: keep the rows whose mask entry is true,
in order. -/
def applyMask : List Record → List Bool → List Record
  | [], _ => []
  | _ :: _, [] => []
  | r :: rs, b :: bs => if b then r :: applyMask rs bs else applyMask rs bs

/-- filtered_df (lines 78-82): df[(df['Date'] >= start_date) &
(df['Date'] <= end_date) & (df['Region'].isin(selected_regions))]. -/
def filtered_df (df : List Record) (c : FilterCriteria) : List Record :=
  applyMask df (andMask (andMask (maskDateGe df c) (maskDateLe df c)) (maskRegionIsin df c))

/-- total_sales (line 91): filtered_df['Sales'].sum(). -/
def total_sales (view : List Record) : Nat :=
  (view.map Record.sales).sum

/-- num_transactions (line 99): len(filtered_df). -/
def num_transactions (view : List Record) : Nat :=
  view.length

/-- Sum of the sales of the rows whose key equals k: one cell of a
groupby(...)['Sales'].sum() result. -/
def sumWhere {κ : Type} [DecidableEq κ] (key : Record → κ) (k : κ) (view : List Record) : Nat :=
  ((view.filter fun r => key r = k).map Record.sales).sum

/-- The index of a groupby(key)...sum() result: the distinct key
values present in the view, sorted (pandas groupby sorts group keys
by default). -/
def groupKeys {κ : Type} [DecidableEq κ] (key : Record → κ) (le : κ → κ → Prop)
    [DecidableRel le] (view : List Record) : List κ :=
  ((view.map key).dedup).insertionSort le

/-- groupby(key)['Sales'].sum().reset_index(): one (key, sum) row per
distinct key present, rows in sorted key order. -/
def groupSum {κ : Type} [DecidableEq κ] (key : Record → κ) (le : κ → κ → Prop)
    [DecidableRel le] (view : List Record) : List (κ × Nat) :=
  (groupKeys key le view).map fun k => (k, sumWhere key k view)

/-- daily_sales_trend (line 110): filtered_df.groupby('Date')['Sales']
.sum().reset_index(); group keys are the dates, sorted ascending.
Line 95 performs the same grouping for the average metric. -/
def daily_sales_trend (view : List Record) : List (Nat × Nat) :=
  groupSum Record.date (· ≤ ·) view

/-- sales_by_region (line 116): filtered_df.groupby('Region')['Sales']
.sum().reset_index(); group keys are the regions, sorted by name. -/
def sales_by_region (view : List Record) : List (Region × Nat) :=
  groupSum Record.region Region.lexLe view

/-- pandas Series.mean(): NaN (modelled none) on an empty series,
otherwise the sum of the entries divided by their count. -/
def seriesMean (s : List Nat) : Option ℚ :=
  if s.length = 0 then none
  else some ((s.map (Nat.cast : Nat → ℚ)).sum / (s.length : ℚ))

/-- avg_daily_sales (line 95): filtered_df.groupby('Date')['Sales']
.sum().mean() — the mean of the per-date sums series produced by the
same grouping as line 110. -/
def avg_daily_sales (view : List Record) : Option ℚ :=
  seriesMean ((daily_sales_trend view).map Prod.snd)

/-- Refinement comparison definition written from the spec's words
for average_daily_sales, "mean of (sum of sales per distinct date
present in view)": the arithmetic mean, over the distinct dates of
the view, of the per-date sales totals. -/
def specMeanDailySales (view : List Record) : ℚ :=
  (((view.map Record.date).dedup.map fun d => sumWhere Record.date d view).map
      (Nat.cast : Nat → ℚ)).sum
    / ((view.map Record.date).dedup.length : ℚ)

/-- A concrete dataset for instantiation: the value of
generate_sales_data with constant-zero oracle streams and
num_days = 3. -/
def w10 : List Record :=
  [⟨0, 100, Region.North⟩, ⟨1, 100, Region.North⟩, ⟨2, 100, Region.North⟩]

/-- Concrete criteria for instantiation: days 0-1, North only. -/
def c10 : FilterCriteria := ⟨0, 1, [Region.North]⟩

/-! ### Helper lemmas about the masked filter -/

theorem andMask_map (f g : Record → Bool) (l : List Record) :
    andMask (l.map f) (l.map g) = l.map fun r => f r && g r := by
  induction l with
  | nil => rfl
  | cons r rs ih => simp [andMask, List.zipWith] at ih ⊢

theorem applyMask_map (f : Record → Bool) (l : List Record) :
    applyMask l (l.map f) = l.filter f := by
  induction l with
  | nil => rfl
  | cons r rs ih =>
    by_cases h : f r <;> simp [applyMask, List.filter_cons, h, ih]

/-- The chained boolean masks of lines 78-82 select exactly the rows
satisfying the conjunction of the three predicates. -/
theorem filtered_df_eq_filter (df : List Record) (c : FilterCriteria) :
    filtered_df df c = df.filter fun r =>
      decide (c.start_date ≤ r.date ∧ r.date ≤ c.end_date ∧ r.region ∈ c.selected_regions) := by
  unfold filtered_df maskDateGe maskDateLe maskRegionIsin
  rw [andMask_map, andMask_map, applyMask_map]
  exact List.filter_congr fun r _ => by simp [Bool.and_assoc]

/-! ### Helper lemmas about grouping -/

theorem sumWhere_perm {κ : Type} [DecidableEq κ] (key : Record → κ) (k : κ)
    {v w : List Record} (h : v.Perm w) : sumWhere key k v = sumWhere key k w :=
  ((h.filter _).map _).sum_eq

theorem sum_sales_filter_split (p : Record → Bool) (l : List Record) :
    ((l.filter p).map Record.sales).sum + ((l.filter fun r => !(p r)).map Record.sales).sum
      = (l.map Record.sales).sum := by
  induction l with
  | nil => rfl
  | cons r rs ih =>
    by_cases h : p r <;>
      simp [List.filter_cons, h, ← ih, Nat.add_assoc, Nat.add_left_comm]

/-- Summing the per-key sums over any duplicate-free list of keys that
covers every row of the view recovers the total sales. -/
theorem sum_sumWhere_of_keys {κ : Type} [DecidableEq κ] (key : Record → κ) :
    ∀ (keys : List κ) (view : List Record), keys.Nodup → (∀ r ∈ view, key r ∈ keys) →
      (keys.map fun k => sumWhere key k view).sum = total_sales view := by
  intro keys
  induction keys with
  | nil =>
    intro view _ hcov
    cases view with
    | nil => rfl
    | cons r rs => exact absurd (hcov r (by simp)) (by simp)
  | cons k ks ih =>
    intro view hnd hcov
    have hk : k ∉ ks := (List.nodup_cons.mp hnd).1
    have hnd' : ks.Nodup := (List.nodup_cons.mp hnd).2
    set view' := view.filter fun r => !(decide (key r = k)) with hview'
    have hcov' : ∀ r ∈ view', key r ∈ ks := by
      intro r hr
      have hr' := List.mem_filter.mp hr
      have : key r ≠ k := by simpa using hr'.2
      rcases List.mem_cons.mp (hcov r hr'.1) with h | h
      · exact absurd h this
      · exact h
    have hsums : ∀ d ∈ ks, sumWhere key d view = sumWhere key d view' := by
      intro d hd
      have hdk : d ≠ k := fun h => hk (h ▸ hd)
      unfold sumWhere
      rw [hview', List.filter_filter]
      refine congrArg _ (congrArg _ (List.filter_congr fun r _ => ?_))
      by_cases h : key r = d
      · simp [h, hdk]
      · simp [h]
    calc (List.map (fun d => sumWhere key d view) (k :: ks)).sum
        = sumWhere key k view + (ks.map fun d => sumWhere key d view).sum := by
          simp
      _ = sumWhere key k view + (ks.map fun d => sumWhere key d view').sum := by
          rw [List.map_congr_left hsums]
      _ = sumWhere key k view + total_sales view' := by
          rw [ih view' hnd' hcov']
      _ = total_sales view := by
          unfold total_sales sumWhere
          rw [hview']
          exact sum_sales_filter_split (fun r => decide (key r = k)) view

theorem groupKeys_nodup {κ : Type} [DecidableEq κ] (key : Record → κ)
    (le : κ → κ → Prop) [DecidableRel le] (view : List Record) :
    (groupKeys key le view).Nodup :=
  (List.perm_insertionSort le _).nodup_iff.mpr (List.nodup_dedup _)

theorem mem_groupKeys {κ : Type} [DecidableEq κ] (key : Record → κ)
    (le : κ → κ → Prop) [DecidableRel le] (view : List Record) (k : κ) :
    k ∈ groupKeys key le view ↔ k ∈ view.map key := by
  unfold groupKeys
  rw [List.mem_insertionSort, List.mem_dedup]

theorem groupSum_fst {κ : Type} [DecidableEq κ] (key : Record → κ)
    (le : κ → κ → Prop) [DecidableRel le] (view : List Record) :
    (groupSum key le view).map Prod.fst = groupKeys key le view := by
  unfold groupSum
  rw [List.map_map]
  exact List.map_id _

theorem groupSum_snd {κ : Type} [DecidableEq κ] (key : Record → κ)
    (le : κ → κ → Prop) [DecidableRel le] (view : List Record) :
    (groupSum key le view).map Prod.snd
      = (groupKeys key le view).map fun k => sumWhere key k view := by
  unfold groupSum
  rw [List.map_map]
  rfl

/-- The grand total of any groupby-sum aggregate equals the total
sales of the view. -/
theorem groupSum_total {κ : Type} [DecidableEq κ] (key : Record → κ)
    (le : κ → κ → Prop) [DecidableRel le] (view : List Record) :
    ((groupSum key le view).map Prod.snd).sum = total_sales view := by
  rw [groupSum_snd]
  refine sum_sumWhere_of_keys key _ view (groupKeys_nodup key le view) ?_
  intro r hr
  exact (mem_groupKeys key le view (key r)).mpr (List.mem_map_of_mem key hr)

/-! ### Claim theorems -/

/-- C1: for every dataset and criteria with an empty region selection
or an inverted date range, the filter yields the empty view (no error:
every stage is a total function), computeMetrics on that view gives
total_sales = 0, average_daily_sales = the no-data sentinel (pandas
mean of an empty series is NaN, modelled none — never a
divide-by-zero failure), transaction_count = 0, and both aggregates
are empty sequences. -/
theorem empty_criteria_pipeline (df : List Record) (c : FilterCriteria)
    (h : c.selected_regions = [] ∨ c.end_date < c.start_date) :
    filtered_df df c = [] ∧
      total_sales (filtered_df df c) = 0 ∧
      avg_daily_sales (filtered_df df c) = none ∧
      num_transactions (filtered_df df c) = 0 ∧
      daily_sales_trend (filtered_df df c) = [] ∧
      sales_by_region (filtered_df df c) = [] := by
  have hempty : filtered_df df c = [] := by
    rw [filtered_df_eq_filter]
    refine List.filter_eq_nil_iff.mpr fun r _ => ?_
    rcases h with h | h
    · simp [h]
    · simp only [decide_eq_true_eq, not_and]
      intro h1 h2
      omega
  refine ⟨hempty, ?_, ?_, ?_, ?_, ?_⟩ <;> rw [hempty] <;> rfl

/-- Witness for C1 at a concrete dataset and criteria. -/
theorem empty_criteria_pipeline_witness :
    filtered_df [⟨0, 100, Region.North⟩] ⟨0, 5, []⟩ = [] ∧
      total_sales (filtered_df [⟨0, 100, Region.North⟩] ⟨0, 5, []⟩) = 0 ∧
      avg_daily_sales (filtered_df [⟨0, 100, Region.North⟩] ⟨0, 5, []⟩) = none ∧
      num_transactions (filtered_df [⟨0, 100, Region.North⟩] ⟨0, 5, []⟩) = 0 ∧
      daily_sales_trend (filtered_df [⟨0, 100, Region.North⟩] ⟨0, 5, []⟩) = [] ∧
      sales_by_region (filtered_df [⟨0, 100, Region.North⟩] ⟨0, 5, []⟩) = [] :=
  empty_criteria_pipeline [⟨0, 100, Region.North⟩] ⟨0, 5, []⟩ (Or.inl rfl)

/-- C2 counterexample, refuting both halves of the claim at explicit
inputs. num_days = 0 satisfies num_days ≤ 0, yet generation succeeds:
pd.date_range accepts periods = 0 and the code returns an empty
dataset, raising no error of any kind. And num_days = 100000 is
positive, yet generation fails: a daily range of 100000 periods from
2024-01-01 passes Timestamp.max, so pd.date_range raises
OutOfBoundsDatetime. -/
theorem generate_boundary_counterexamples :
    ((0 : Int) ≤ 0 ∧
      generate_sales_data (fun _ => 0) (fun _ => 0) 0 = Except.ok []) ∧
    ((0 : Int) < 100000 ∧
      generate_sales_data (fun _ => 0) (fun _ => 0) 100000
        = Except.error GenError.outOfBoundsDatetime) :=
  ⟨⟨le_refl 0, rfl⟩, ⟨by decide, rfl⟩⟩

/-- C2 amended: generation fails with the InvalidArgument error kind
exactly for negative num_days (pd.date_range's ValueError on a
negative periods argument); for 0 ≤ num_days ≤ 87029 it succeeds,
returning num_days records — in particular num_days = 0 yields the
empty dataset rather than an error; and for num_days > 87029 it
fails with the OutOfBoundsDatetime error kind, because the range of
midnights would pass Timestamp.max (2262-04-11). -/
theorem generate_error_trichotomy (salesRng regionRng : Nat → Nat) (num_days : Int) :
    (num_days < 0 →
      generate_sales_data salesRng regionRng num_days
        = Except.error GenError.invalidArgument) ∧
    (0 ≤ num_days → num_days ≤ (maxDailyPeriods : Int) →
      ∃ l, generate_sales_data salesRng regionRng num_days = Except.ok l ∧
        (l.length : Int) = num_days) ∧
    ((maxDailyPeriods : Int) < num_days →
      generate_sales_data salesRng regionRng num_days
        = Except.error GenError.outOfBoundsDatetime) := by
  refine ⟨?_, ?_, ?_⟩
  · intro h
    simp [generate_sales_data, h]
  · intro h hle
    have hbound : ¬ maxDailyPeriods < num_days.toNat := by
      intro hcontra
      have := Int.toNat_of_nonneg h
      omega
    refine ⟨(List.range num_days.toNat).map fun i =>
      { date := i, sales := 100 + salesRng i % 900,
        region := regionChoice (regionRng i) }, ?_, ?_⟩
    · simp [generate_sales_data, not_lt.mpr h, hbound]
    · simp [Int.toNat_of_nonneg h]
  · intro h
    have h0 : ¬ num_days < 0 := by
      intro hcontra
      omega
    have hbig : maxDailyPeriods < num_days.toNat := by
      have := Int.toNat_of_nonneg (not_lt.mp h0)
      omega
    simp [generate_sales_data, h0, hbig]

/-- Witness for C2's amended statement at num_days = -9, 7 and
100000. -/
theorem generate_error_trichotomy_witness :
    generate_sales_data (fun _ => 0) (fun _ => 0) (-9)
        = Except.error GenError.invalidArgument ∧
      (∃ l, generate_sales_data (fun _ => 0) (fun _ => 0) 7 = Except.ok l ∧
        (l.length : Int) = 7) ∧
      generate_sales_data (fun _ => 0) (fun _ => 0) 100000
        = Except.error GenError.outOfBoundsDatetime :=
  ⟨(generate_error_trichotomy (fun _ => 0) (fun _ => 0) (-9)).1 (by decide),
   (generate_error_trichotomy (fun _ => 0) (fun _ => 0) 7).2.1 (by decide) (by decide),
   (generate_error_trichotomy (fun _ => 0) (fun _ => 0) 100000).2.2 (by decide)⟩

/-- C3: the filter output is exactly the subsequence of the dataset's
records satisfying the inclusion predicate start_date ≤ date ≤
end_date and region ∈ selected_regions, in the dataset's original
order (a Sublist of the input); the embedding is a pure function on
an immutable list, so the input dataset is unchanged by
construction. -/
theorem filtered_df_subsequence_spec (df : List Record) (c : FilterCriteria) :
    filtered_df df c = df.filter (fun r =>
        decide (c.start_date ≤ r.date ∧ r.date ≤ c.end_date ∧
          r.region ∈ c.selected_regions)) ∧
      (filtered_df df c).Sublist df ∧
      ∀ r : Record, r ∈ filtered_df df c ↔
        r ∈ df ∧ c.start_date ≤ r.date ∧ r.date ≤ c.end_date ∧
          r.region ∈ c.selected_regions := by
  refine ⟨filtered_df_eq_filter df c, ?_, ?_⟩
  · rw [filtered_df_eq_filter]
    exact List.filter_sublist df
  · intro r
    rw [filtered_df_eq_filter, List.mem_filter]
    simp

/-- Whatever the oracle draw, regionChoice lands in the four-element
region set. -/
theorem regionChoice_cases (m : Nat) :
    regionChoice m = Region.North ∨ regionChoice m = Region.South ∨
      regionChoice m = Region.East ∨ regionChoice m = Region.West := by
  unfold regionChoice
  split
  · exact Or.inl rfl
  split
  · exact Or.inr (Or.inl rfl)
  split
  · exact Or.inr (Or.inr (Or.inl rfl))
  · exact Or.inr (Or.inr (Or.inr rfl))

/-- C4 counterexample: num_days = 90000 is positive, yet generation
does not return 90000 records: a daily range of 90000 periods from
2024-01-01 passes Timestamp.max (2262-04-11), so pd.date_range
raises OutOfBoundsDatetime. -/
theorem generate_large_range_fails :
    (0 : Int) < 90000 ∧
      generate_sales_data (fun _ => 0) (fun _ => 0) 90000
        = Except.error GenError.outOfBoundsDatetime :=
  ⟨by decide, rfl⟩

/-- C4 amended: for positive num_days up to 87029 (the largest daily
range from 2024-01-01 that stays below Timestamp.max), generation
succeeds with exactly num_days records, the i-th record's date is the
i-th consecutive day after the 2024-01-01 epoch (a contiguous
ascending run), every sales value lies in [100, 1000), and every
region is one of the four listed regions. -/
theorem generate_sales_data_spec (salesRng regionRng : Nat → Nat) (num_days : Int)
    (h : 0 < num_days) (hle : num_days ≤ (maxDailyPeriods : Int)) :
    ∃ l, generate_sales_data salesRng regionRng num_days = Except.ok l ∧
      (l.length : Int) = num_days ∧
      (∀ i : Fin l.length, (l.get i).date = (i : Nat)) ∧
      (∀ r ∈ l, 100 ≤ r.sales ∧ r.sales < 1000) ∧
      (∀ r ∈ l, r.region = Region.North ∨ r.region = Region.South ∨
        r.region = Region.East ∨ r.region = Region.West) := by
  have hbound : ¬ maxDailyPeriods < num_days.toNat := by
    intro hcontra
    have := Int.toNat_of_nonneg h.le
    omega
  refine ⟨(List.range num_days.toNat).map fun i =>
      { date := i, sales := 100 + salesRng i % 900,
        region := regionChoice (regionRng i) }, ?_, ?_, ?_, ?_, ?_⟩
  · simp [generate_sales_data, not_lt.mpr h.le, hbound]
  · simp [Int.toNat_of_nonneg h.le]
  · intro i
    simp
  · intro r hr
    obtain ⟨i, _, rfl⟩ := List.mem_map.mp hr
    have hmod : salesRng i % 900 < 900 := Nat.mod_lt _ (by decide)
    refine ⟨Nat.le_add_right 100 _, ?_⟩
    show 100 + salesRng i % 900 < 1000
    omega
  · intro r hr
    obtain ⟨i, _, rfl⟩ := List.mem_map.mp hr
    exact regionChoice_cases (regionRng i)

/-- Witness for C4 at num_days = 2 and concrete oracle streams. -/
theorem generate_sales_data_spec_witness :
    ∃ l, generate_sales_data (fun i => 850 + i) (fun i => i) 2 = Except.ok l ∧
      (l.length : Int) = 2 ∧
      (∀ i : Fin l.length, (l.get i).date = (i : Nat)) ∧
      (∀ r ∈ l, 100 ≤ r.sales ∧ r.sales < 1000) ∧
      (∀ r ∈ l, r.region = Region.North ∨ r.region = Region.South ∨
        r.region = Region.East ∨ r.region = Region.West) :=
  generate_sales_data_spec (fun i => 850 + i) (fun i => i) 2 (by decide) (by decide)

/-- C5: the sum of the per-date totals of the date aggregate equals
the total_sales metric of the same view. -/
theorem daily_trend_sum_law (view : List Record) :
    ((daily_sales_trend view).map Prod.snd).sum = total_sales view :=
  groupSum_total Record.date (· ≤ ·) view

/-- C6: on any view with at least one record (equivalently at least
one distinct date), avg_daily_sales equals the arithmetic mean, over
the distinct dates present, of the per-date sales sums — a mean over
distinct dates, not over records. -/
theorem avg_daily_sales_spec (view : List Record) (h : view ≠ []) :
    avg_daily_sales view = some (specMeanDailySales view) := by
  obtain ⟨r, hr⟩ : ∃ r, r ∈ view := by
    cases view with
    | nil => exact absurd rfl h
    | cons a l => exact ⟨a, by simp⟩
  have hperm : (groupKeys Record.date (· ≤ ·) view).Perm (view.map Record.date).dedup :=
    List.perm_insertionSort _ _
  have hmem : r.date ∈ groupKeys Record.date (· ≤ ·) view :=
    (mem_groupKeys _ _ _ _).mpr (List.mem_map_of_mem _ hr)
  have hne : (groupKeys Record.date (· ≤ ·) view).length ≠ 0 := by
    intro h0
    rw [List.length_eq_zero] at h0
    rw [h0] at hmem
    exact List.not_mem_nil _ hmem
  unfold avg_daily_sales seriesMean specMeanDailySales daily_sales_trend
  rw [groupSum_snd, List.map_map, List.map_map, List.length_map]
  rw [if_neg hne]
  have hsum := (hperm.map ((Nat.cast : Nat → ℚ) ∘ fun k => sumWhere Record.date k view)).sum_eq
  rw [hsum, hperm.length_eq]

/-- Witness for C6 on a concrete two-day view. -/
theorem avg_daily_sales_spec_witness :
    avg_daily_sales [⟨0, 100, Region.North⟩, ⟨1, 200, Region.South⟩]
      = some (specMeanDailySales [⟨0, 100, Region.North⟩, ⟨1, 200, Region.South⟩]) :=
  avg_daily_sales_spec [⟨0, 100, Region.North⟩, ⟨1, 200, Region.South⟩] (by decide)

/-- C7: the date aggregate has strictly ascending dates (hence
exactly one row per date and no duplicates), its dates are exactly
the distinct dates present in the view (a date with no matching
record never appears), and each row's value is the sum of the sales
of that date's records. -/
theorem daily_trend_rows_spec (view : List Record) :
    List.Sorted (· < ·) ((daily_sales_trend view).map Prod.fst) ∧
      (∀ d : Nat, d ∈ (daily_sales_trend view).map Prod.fst ↔ d ∈ view.map Record.date) ∧
      (daily_sales_trend view).map Prod.snd
        = ((daily_sales_trend view).map Prod.fst).map fun d => sumWhere Record.date d view := by
  unfold daily_sales_trend
  refine ⟨?_, ?_, ?_⟩
  · rw [groupSum_fst]
    exact (List.sorted_insertionSort _ _).lt_of_le (groupKeys_nodup _ _ _)
  · intro d
    rw [groupSum_fst]
    exact mem_groupKeys Record.date (· ≤ ·) view d
  · rw [groupSum_fst, groupSum_snd]

/-- C8: the region aggregate's row order is canonical in the multiset
of input rows (keys sorted lexicographically by region name), so two
calls on the same view — indeed on any reordering of it — return the
same sequence of rows in the same order. -/
theorem sales_by_region_stable (v w : List Record) (h : v.Perm w) :
    sales_by_region v = sales_by_region w := by
  have hkeys : groupKeys Record.region Region.lexLe v
      = groupKeys Record.region Region.lexLe w := by
    refine List.eq_of_perm_of_sorted ?_ (List.sorted_insertionSort _ _)
      (List.sorted_insertionSort _ _)
    exact (List.perm_insertionSort _ _).trans
      (((h.map _).dedup).trans (List.perm_insertionSort _ _).symm)
  unfold sales_by_region groupSum
  rw [hkeys]
  exact List.map_congr_left fun k _ => by rw [sumWhere_perm Record.region k h]

/-- Witness for C8 on a concrete view and a reordering of it. -/
theorem sales_by_region_stable_witness :
    sales_by_region [⟨0, 1, Region.West⟩, ⟨0, 2, Region.East⟩]
      = sales_by_region [⟨0, 2, Region.East⟩, ⟨0, 1, Region.West⟩] :=
  sales_by_region_stable [⟨0, 1, Region.West⟩, ⟨0, 2, Region.East⟩]
    [⟨0, 2, Region.East⟩, ⟨0, 1, Region.West⟩] (List.Perm.swap _ _ _)

/-- C9: the sum of the per-region totals of the region aggregate
equals the total_sales metric of the same view — the sum law holds
for the region aggregate just as for the date aggregate. -/
theorem region_sum_law (view : List Record) :
    ((sales_by_region view).map Prod.snd).sum = total_sales view :=
  groupSum_total Record.region Region.lexLe view

/-- C10: a generated dataset has one record per day, so every
filtered view of it has pairwise-distinct dates, its date aggregate
has exactly transaction_count rows, and on a non-empty view the
average equals total_sales divided by transaction_count. -/
theorem generated_view_distinct_dates (salesRng regionRng : Nat → Nat) (num_days : Int)
    (c : FilterCriteria) (l : List Record)
    (h : generate_sales_data salesRng regionRng num_days = Except.ok l) :
    ((filtered_df l c).map Record.date).Nodup ∧
      (daily_sales_trend (filtered_df l c)).length
        = num_transactions (filtered_df l c) ∧
      (filtered_df l c ≠ [] →
        avg_daily_sales (filtered_df l c)
          = some ((total_sales (filtered_df l c) : ℚ)
              / (num_transactions (filtered_df l c) : ℚ))) := by
  have hldates : l.map Record.date = List.range num_days.toNat := by
    unfold generate_sales_data at h
    split at h
    · exact Except.noConfusion h
    · split at h
      · exact Except.noConfusion h
      · obtain rfl := Except.ok.inj h
        rw [List.map_map]
        exact List.map_id _
  have hlnodup : (l.map Record.date).Nodup := by
    rw [hldates]
    exact List.nodup_range _
  have hsub : (filtered_df l c).Sublist l := by
    rw [filtered_df_eq_filter]
    exact List.filter_sublist l
  have hnodup : ((filtered_df l c).map Record.date).Nodup :=
    hlnodup.sublist (hsub.map Record.date)
  have hkeyslen : (groupKeys Record.date (· ≤ ·) (filtered_df l c)).length
      = (filtered_df l c).length := by
    unfold groupKeys
    rw [(List.perm_insertionSort _ _).length_eq, List.dedup_eq_self.mpr hnodup,
      List.length_map]
  have hrows : (daily_sales_trend (filtered_df l c)).length = (filtered_df l c).length := by
    unfold daily_sales_trend groupSum
    rw [List.length_map, hkeyslen]
  refine ⟨hnodup, hrows, ?_⟩
  intro hne
  have hlen0 : ((daily_sales_trend (filtered_df l c)).map Prod.snd).length ≠ 0 := by
    rw [List.length_map, hrows]
    intro h0
    exact hne (List.length_eq_zero.mp h0)
  have hsum : ((daily_sales_trend (filtered_df l c)).map Prod.snd).sum
      = total_sales (filtered_df l c) :=
    groupSum_total Record.date (· ≤ ·) (filtered_df l c)
  unfold avg_daily_sales seriesMean
  rw [if_neg hlen0, ← Nat.cast_list_sum, hsum, List.length_map, hrows]
  rfl

/-- Witness for C10 on a concrete generated dataset and criteria. -/
theorem generated_view_distinct_dates_witness :
    ((filtered_df w10 c10).map Record.date).Nodup ∧
      (daily_sales_trend (filtered_df w10 c10)).length
        = num_transactions (filtered_df w10 c10) ∧
      (filtered_df w10 c10 ≠ [] →
        avg_daily_sales (filtered_df w10 c10)
          = some ((total_sales (filtered_df w10 c10) : ℚ)
              / (num_transactions (filtered_df w10 c10) : ℚ))) :=
  generated_view_distinct_dates (fun _ => 0) (fun _ => 0) 3 c10 w10 rfl

end SalesDashboard
